import Mathlib

/-!
Verification development for the e-commerce business-rule tracking
integration: a Medusa.js backend whose event subscribers call an external
tracking SDK through `ensure()`.

The evaluation engine itself (Run Store, Dependency Resolver, Validator
Executor) lives in the external SDK, outside this repository's sources;
it is modelled here from the specification (definitions marked
`Modelled from the spec:`).  The subscribers (cart-updated, order-placed,
return-requested, loyalty-tracking, inventory monitoring) are translated
from the repository's TypeScript sources.

JavaScript numbers are modelled as rationals (ℚ); `undefined` and `NaN`
are both modelled as `Value.null`, since both compare `false` against any
number under `<`, `<=`, `>=` and fail strict equality with any number.
-/

/-- A JSON-like value carried in an event's `data` record. -/
inductive Value where
  | num (q : ℚ)
  | str (s : String)
  | bool (b : Bool)
  | null
deriving DecidableEq

/-- An event's `data`: a key/value record, modelled as an association list. -/
abbrev DataRec := List (String × Value)

/-- JS property access `data.k`: the field's value, or `null` (undefined) when absent. -/
def getField (d : DataRec) (k : String) : Value :=
  match d.find? (fun p => decide (p.1 = k)) with
  | some p => p.2
  | none => Value.null

/-- Numeric view of a value: `some q` for a number, `none` otherwise
(mirrors that JS comparisons with undefined/NaN are false). -/
def Value.asNum : Value → Option ℚ
  | Value.num q => some q
  | _ => none

/-- JS truthiness of a value. -/
def Value.isTruthy : Value → Bool
  | Value.num q => decide (q ≠ 0)
  | Value.str s => decide (s ≠ "")
  | Value.bool b => b
  | Value.null => false

/-- JS `v > q` where `q` is a number literal: false unless `v` is a number. -/
def gtNum (v : Value) (q : ℚ) : Bool :=
  match v.asNum with
  | some x => decide (q < x)
  | none => false

/-- JS `v >= q` where `q` is a number literal: false unless `v` is a number. -/
def geNum (v : Value) (q : ℚ) : Bool :=
  match v.asNum with
  | some x => decide (q ≤ x)
  | none => false

/-- JS `v <= q` where `q` is a number literal: false unless `v` is a number. -/
def leNum (v : Value) (q : ℚ) : Bool :=
  match v.asNum with
  | some x => decide (x ≤ q)
  | none => false

/-- JS `v1 <= v2` between two data fields: false unless both are numbers. -/
def leVal (v1 v2 : Value) : Bool :=
  match v1.asNum, v2.asNum with
  | some x, some y => decide (x ≤ y)
  | _, _ => false

/-- JS `Math.abs(v1 - v2) < q`: false unless both operands are numbers. -/
def absLtNum (v1 v2 : Value) (q : ℚ) : Bool :=
  match v1.asNum, v2.asNum with
  | some x, some y => decide (|x - y| < q)
  | _, _ => false

/-- The key under which the Run Store persists an event. -/
structure EventKey where
  flow : String
  runId : String
  nodeId : String
deriving DecidableEq

/-- Modelled from the spec: per-event outcome of the Validator Executor —
`Evaluated\x7bpass\x7d`, `Evaluated\x7bfail\x7d`, `Evaluated\x7berror\x7d`
(a validator fault, annotated with the fault), or no status when no
validator is attached (pure telemetry). -/
inductive Outcome where
  | pass
  | fail
  | faulted (msg : String)
  | untested
deriving DecidableEq

/-- A failed outcome: a business violation or a validator fault. -/
def Outcome.isFailure : Outcome → Bool
  | Outcome.fail => true
  | Outcome.faulted _ => true
  | _ => false

/-- Modelled from the spec: a stored event (node occurrence) in the Run Store,
keyed by (flow, runId, nodeId), carrying its data and attached outcome. -/
structure Event where
  key : EventKey
  data : DataRec
  depIds : List String
  outcome : Outcome
deriving DecidableEq

/-- A validator predicate over (data, resolved dependency events); a runtime
fault while evaluating is an `Except.error`. -/
abbrev Validator := DataRec → List Event → Except String Bool

/-- The argument record of one `ensure()` call. -/
structure EnsureCall where
  id : String
  flow : String
  runId : String
  data : DataRec
  depIds : List String
  validator : Option Validator
  descr : String

/-- The (flow, runId, nodeId) key an `ensure()` call writes to. -/
def EnsureCall.key (c : EnsureCall) : EventKey :=
  ⟨c.flow, c.runId, c.id⟩

/-- Modelled from the spec: the Run Store — events keyed by (flow, runId, nodeId). -/
abbrev RunStore := List Event

/-- Modelled from the spec: `get(flow, runId, nodeId)` returns the event or
absent (`none`) — never throws for a missing node. -/
def RunStore.get (s : RunStore) (k : EventKey) : Option Event :=
  s.find? (fun e => decide (e.key = k))

/-- Number of stored events under a given key. -/
def countKey (s : RunStore) (k : EventKey) : Nat :=
  (s.filter (fun e => decide (e.key = k))).length

/-- Modelled from the spec: the Dependency Resolver — for each id in `depIds`,
looks up `get`; returns a mapping from nodeId to event-or-absent, never
failing for a missing dependency. -/
def resolve (s : RunStore) (flow runId : String) (depIds : List String) :
    List (String × Option Event) :=
  depIds.map (fun i => (i, RunStore.get s ⟨flow, runId, i⟩))

/-- The resolved dependency events that are present, in depId order: the
`ctx.deps` sequence handed to a validator. -/
def presentDeps (s : RunStore) (flow runId : String) (depIds : List String) :
    List Event :=
  (resolve s flow runId depIds).filterMap (fun p => p.2)

/-- Modelled from the spec: the Validator Executor — with no validator the
event carries no pass/fail status; otherwise the predicate runs on
(data, deps), any runtime fault being caught and converted to a failed
outcome annotated with the fault, never propagated. -/
def evaluate (v : Option Validator) (d : DataRec) (deps : List Event) : Outcome :=
  match v with
  | none => Outcome.untested
  | some f =>
    match f d deps with
    | Except.ok true => Outcome.pass
    | Except.ok false => Outcome.fail
    | Except.error msg => Outcome.faulted msg

/-- Modelled from the spec: `ensure()` — resolves the declared dependencies
against the sibling events already recorded for the run, evaluates the
optional validator, and upserts the event under (flow, runId, nodeId)
(idempotent overwrite: any previous event at that key is replaced). -/
def ensure (s : RunStore) (c : EnsureCall) : RunStore :=
  let deps := presentDeps s c.flow c.runId c.depIds
  let oc := evaluate c.validator c.data deps
  ⟨c.key, c.data, c.depIds, oc⟩ :: s.filter (fun e => decide (e.key ≠ c.key))

/-- The full event an `ensure()` call stores, given the prior store. -/
def ensuredEvent (s : RunStore) (c : EnsureCall) : Event :=
  ⟨c.key, c.data, c.depIds, evaluate c.validator c.data (presentDeps s c.flow c.runId c.depIds)⟩

lemma get_ensure_self (s : RunStore) (c : EnsureCall) :
    RunStore.get (ensure s c) c.key = some (ensuredEvent s c) := by
  unfold RunStore.get ensure ensuredEvent
  rw [List.find?_cons_of_pos _ (by simp)]

lemma find?_filter_of_imp (p q : α → Bool) (l : List α)
    (h : ∀ a, p a = true → q a = true) :
    (l.filter q).find? p = l.find? p := by
  induction l with
  | nil => rfl
  | cons a t ih =>
    by_cases hq : q a = true
    · rw [List.filter_cons_of_pos hq]
      cases hp : p a
      · rw [List.find?_cons_of_neg _ (by simp [hp]), List.find?_cons_of_neg _ (by simp [hp]), ih]
      · rw [List.find?_cons_of_pos _ hp, List.find?_cons_of_pos _ hp]
    · rw [List.filter_cons_of_neg (by simpa using hq)]
      cases hp : p a
      · rw [List.find?_cons_of_neg _ (by simp [hp]), ih]
      · exact absurd (h a hp) hq

lemma get_ensure_ne (s : RunStore) (c : EnsureCall) (k : EventKey)
    (h : k ≠ c.key) :
    RunStore.get (ensure s c) k = RunStore.get s k := by
  unfold RunStore.get ensure
  rw [List.find?_cons_of_neg _ (by simpa using fun hk => h hk.symm)]
  exact find?_filter_of_imp _ _ s (by
    intro e he
    simp only [decide_eq_true_eq] at he ⊢
    rw [he]
    exact fun hk => h hk)

lemma filter_filter_ne (s : RunStore) (k : EventKey) :
    ((s.filter (fun e => decide (e.key ≠ k))).filter (fun e => decide (e.key = k))) = [] := by
  induction s with
  | nil => rfl
  | cons a t ih =>
    by_cases ha : a.key = k
    · rw [List.filter_cons_of_neg (by simp [ha])]
      exact ih
    · rw [List.filter_cons_of_pos (by simp [ha]), List.filter_cons_of_neg (by simp [ha])]
      exact ih

lemma countKey_ensure_self (s : RunStore) (c : EnsureCall) :
    countKey (ensure s c) c.key = 1 := by
  unfold countKey ensure
  rw [List.filter_cons_of_pos (by simp)]
  simp [filter_filter_ne]

/-- Numeric-or-undefined field (`undefined`/`NaN` modelled as `null`). -/
def optNum : Option ℚ → Value
  | some q => Value.num q
  | none => Value.null

/-- String-or-undefined field. -/
def optStr : Option String → Value
  | some s => Value.str s
  | none => Value.null

/-- A shipping method on a cart (only `amount`/`price` are inspected). -/
structure ShippingMethod where
  amount : Option ℚ
  price : Option ℚ

/-- A cart line item (only the count of items is inspected). -/
structure CartItem where
  id : String

/-- The cart fields the cart-updated subscriber reads. -/
structure Cart where
  id : String
  items : Option (List CartItem)
  subtotal : Option ℚ
  total : Option ℚ
  shipping_total : Option ℚ
  shipping_methods : Option (List ShippingMethod)

/-- `cart_validated` rule of `cart-updated.ts`: `item_count > 0 && total > 0`. -/
def cartValidatedCheck (d : DataRec) : Bool :=
  gtNum (getField d "item_count") 0 && gtNum (getField d "total") 0

/-- `cart_validated` rule of the unnamed cart-updated variant: `item_count > 0`. -/
def cartValidatedCheckVar (d : DataRec) : Bool :=
  gtNum (getField d "item_count") 0

def cartValidatedV : Validator := fun d _ => Except.ok (cartValidatedCheck d)

def cartValidatedVarV : Validator := fun d _ => Except.ok (cartValidatedCheckVar d)

/-- `discount_validation` rule: `discount_percent <= 0.30`. -/
def discountCheck (d : DataRec) : Bool :=
  leNum (getField d "discount_percent") (30 / 100)

def discountV : Validator := fun d _ => Except.ok (discountCheck d)

/-- `free_shipping_eligibility` rule: with free shipping, `subtotal >= 5000`. -/
def freeShippingCheck (d : DataRec) : Bool :=
  if (getField d "has_free_shipping").isTruthy then geNum (getField d "subtotal") 5000
  else true

def freeShippingV : Validator := fun d _ => Except.ok (freeShippingCheck d)

/-- The `data` record the cart-updated subscribers build for
`discount_validation`: `total_discount = subtotal - total` and
`discount_percent = subtotal > 0 ? total_discount / subtotal : 0`. -/
def mkDiscountData (cartId : String) (subtotal total : ℚ) : DataRec :=
  [("cart_id", Value.str cartId),
   ("subtotal", Value.num subtotal),
   ("total", Value.num total),
   ("total_discount", Value.num (subtotal - total)),
   ("discount_percent", Value.num (if 0 < subtotal then (subtotal - total) / subtotal else 0))]

/-- The `ensure()` calls `handleCartUpdated` of `cart-updated.ts` makes for a cart. -/
def cartUpdatedCalls (cart : Cart) : List EnsureCall :=
  let runId := "cart_" ++ cart.id
  let itemCount : ℚ := ((cart.items.getD []).length : ℚ)
  let subtotal := cart.subtotal.getD 0
  let total := cart.total.getD 0
  [{ id := "cart_validated", flow := "checkout", runId := runId,
     data := [("cart_id", Value.str cart.id), ("item_count", Value.num itemCount),
              ("subtotal", Value.num subtotal), ("total", Value.num total)],
     depIds := [], validator := some cartValidatedV,
     descr := "Cart validation: must have items and positive total" }]
  ++ (if 0 < (cart.items.getD []).length ∧ 0 < subtotal - total then
      [{ id := "discount_validation", flow := "checkout", runId := runId,
         data := mkDiscountData cart.id subtotal total,
         depIds := ["cart_validated"], validator := some discountV,
         descr := "Discount stacking limit: prevent >30% total discount abuse" }]
      else [])
  ++ (match (cart.shipping_methods.getD []).find?
        (fun m => decide (m.amount = some 0) || decide (m.price = some 0)) with
      | some _ =>
        [{ id := "free_shipping_eligibility", flow := "checkout", runId := runId,
           data := [("cart_id", Value.str cart.id), ("subtotal", optNum cart.subtotal),
                    ("has_free_shipping", Value.bool true),
                    ("shipping_total", Value.num (cart.shipping_total.getD 0))],
           depIds := ["cart_validated"], validator := some freeShippingV,
           descr := "Free shipping threshold: $50 minimum order value" }]
      | none => [])

/-- The `ensure()` calls the unnamed cart-updated variant makes for a cart
(same shape, but `cart_validated` checks only `item_count > 0`). -/
def cartUpdatedCallsVar (cart : Cart) : List EnsureCall :=
  let runId := "cart_" ++ cart.id
  let itemCount : ℚ := ((cart.items.getD []).length : ℚ)
  let subtotal := cart.subtotal.getD 0
  let total := cart.total.getD 0
  [{ id := "cart_validated", flow := "checkout", runId := runId,
     data := [("cart_id", Value.str cart.id), ("item_count", Value.num itemCount),
              ("subtotal", Value.num subtotal), ("total", Value.num total)],
     depIds := [], validator := some cartValidatedVarV,
     descr := "Cart validation: must have items and positive total" }]
  ++ (if 0 < (cart.items.getD []).length ∧ 0 < subtotal - total then
      [{ id := "discount_validation", flow := "checkout", runId := runId,
         data := mkDiscountData cart.id subtotal total,
         depIds := ["cart_validated"], validator := some discountV,
         descr := "Discount stacking limit: prevent >30% total discount abuse" }]
      else [])
  ++ (match (cart.shipping_methods.getD []).find?
        (fun m => decide (m.amount = some 0) || decide (m.price = some 0)) with
      | some _ =>
        [{ id := "free_shipping_eligibility", flow := "checkout", runId := runId,
           data := [("cart_id", Value.str cart.id), ("subtotal", optNum cart.subtotal),
                    ("has_free_shipping", Value.bool true),
                    ("shipping_total", Value.num (cart.shipping_total.getD 0))],
           depIds := ["cart_validated"], validator := some freeShippingV,
           descr := "Free shipping threshold: $50 minimum order value" }]
      | none => [])

/-- An order line item, with the fields the order-placed subscribers read. -/
structure OrderItem where
  id : String
  product_title : Option String
  title : String
  quantity : ℚ
  variant_id : Option String

/-- The order fields the order-placed and loyalty subscribers read. -/
structure Order where
  id : String
  cart_id : Option String
  customer_id : Option String
  email : Option String
  tax_total : Option ℚ
  subtotal : Option ℚ
  total : Option ℚ
  payment_total : Option ℚ
  currency_code : String
  status : String
  payment_status : String
  fulfillment_status : String
  items : Option (List OrderItem)

/-- `tax_calculated` rule: `tax_total >= 0`. -/
def taxCheck (d : DataRec) : Bool :=
  geNum (getField d "tax_total") 0

def taxV : Validator := fun d _ => Except.ok (taxCheck d)

/-- `payment_amount_validation` rule: `Math.abs(order_total - payment_total) < 100`. -/
def paymentCheck (d : DataRec) : Bool :=
  absLtNum (getField d "order_total") (getField d "payment_total") 100

def paymentV : Validator := fun d _ => Except.ok (paymentCheck d)

/-- `inventory_reserved` rule: `ordered_quantity > 0`. -/
def inventoryCheck (d : DataRec) : Bool :=
  gtNum (getField d "ordered_quantity") 0

def inventoryV : Validator := fun d _ => Except.ok (inventoryCheck d)

/-- `order_confirmed` rule: find the `payment_amount_validation` dependency in
`ctx.deps`; absent means `false`, present means
`Math.abs(data.order_total - dep.data.payment_total) < 100`. -/
def orderConfirmedCheck (d : DataRec) (deps : List Event) : Bool :=
  match deps.find? (fun e => decide (e.key.nodeId = "payment_amount_validation")) with
  | some dep => absLtNum (getField d "order_total") (getField dep.data "payment_total") 100
  | none => false

def orderConfirmedV : Validator := fun d deps => Except.ok (orderConfirmedCheck d deps)

/-- The dependency ids the order-placed subscribers declare on `order_confirmed`. -/
def orderConfirmDepIds : List String :=
  ["customer_orders", "tax_calculated", "payment_amount_validation",
   "first_order_discount_check", "inventory_reserved"]

/-- `BusinessUseHelpers.getOrderRunId` from the business-use helper module:
the caller-chosen run id for an order flow. -/
def getOrderRunId (orderId : String) : String := "order_" ++ orderId

/-- `BusinessUseHelpers.getReturnRunId` from the business-use helper module:
the caller-chosen run id for a return flow. -/
def getReturnRunId (returnId : String) : String := "return_" ++ returnId

/-- `BusinessUseHelpers.getLoyaltyRunId` from the business-use helper module:
the caller-chosen run id for a loyalty flow. -/
def getLoyaltyRunId (customerId orderId : String) : String :=
  "loyalty_" ++ customerId ++ "_" ++ orderId

/-- `BusinessUseHelpers.getInventoryRunId` from the business-use helper module:
the caller-chosen run id for an inventory flow. -/
def getInventoryRunId (itemId : String) : String := "inventory_" ++ itemId

/-- The is-first-order / total-orders pair `handleOrderPlaced` computes: the
customer-order lookup runs only for a known customer, and its own failure is
caught inside the handler, leaving the defaults `(false, 0)`. -/
def firstOrderInfo (o : Order) (custOrders : Except String (List Order)) : Bool × ℚ :=
  match o.customer_id, custOrders with
  | some _, Except.ok os => (decide (os.length = 1), (os.length : ℚ))
  | some _, Except.error _ => (false, 0)
  | none, _ => (false, 0)

/-- The `ensure()` calls `handleOrderPlaced` of `order-placed.ts` makes for an
order (`custOrders` is the outcome of the customer-order lookup, `now` the
confirmation timestamp). -/
def orderPlacedCalls (o : Order) (custOrders : Except String (List Order))
    (now : String) : List EnsureCall :=
  let runId := match o.cart_id with
    | some cid => "cart_" ++ cid
    | none => getOrderRunId o.id
  let info := firstOrderInfo o custOrders
  [{ id := "tax_calculated", flow := "checkout", runId := runId,
     data := [("order_id", Value.str o.id), ("tax_total", Value.num (o.tax_total.getD 0)),
              ("subtotal", Value.num (o.subtotal.getD 0)),
              ("has_tax", Value.bool (decide (0 < o.tax_total.getD 0)))],
     depIds := ["cart_validated"], validator := some taxV,
     descr := "Tax calculation: tax must be calculated correctly" },
   { id := "payment_amount_validation", flow := "checkout", runId := runId,
     data := [("order_id", Value.str o.id), ("order_total", Value.num (o.total.getD 0)),
              ("payment_total", Value.num (o.payment_total.getD 0)),
              ("currency", Value.str o.currency_code)],
     depIds := ["tax_calculated"], validator := some paymentV,
     descr := "Payment validation: amount must match order total" }]
  ++ ((o.items.getD []).map (fun it =>
      { id := "inventory_reserved", flow := "checkout", runId := runId,
        data := [("order_id", Value.str o.id), ("item_id", Value.str it.id),
                 ("product_title", Value.str (it.product_title.getD it.title)),
                 ("ordered_quantity", Value.num it.quantity),
                 ("variant_id", optStr it.variant_id)],
        depIds := ["cart_validated"], validator := some inventoryV,
        descr := "Inventory check" }))
  ++ [{ id := "customer_orders", flow := "checkout", runId := runId,
        data := [("order_id", Value.str o.id), ("customer_id", optStr o.customer_id),
                 ("customer_email", optStr o.email),
                 ("is_first_order", Value.bool info.1), ("total_orders", Value.num info.2)],
        depIds := ["cart_validated"], validator := none,
        descr := "Customer order history info" },
      { id := "order_confirmed", flow := "checkout", runId := runId,
        data := [("order_id", Value.str o.id), ("order_total", optNum o.total),
                 ("status", Value.str o.status),
                 ("payment_status", Value.str o.payment_status),
                 ("fulfillment_status", Value.str o.fulfillment_status),
                 ("confirmed_at", Value.str now)],
        depIds := orderConfirmDepIds, validator := some orderConfirmedV,
        descr := "Order confirmation: all business rules validated successfully" }]

/-- The `ensure()` calls the unnamed order-placed variant makes: the run id is
always derived from the order id, and the upstream `depIds` of the tax,
inventory and customer-orders nodes are dropped. -/
def orderPlacedCallsVar (o : Order) (custOrders : Except String (List Order))
    (now : String) : List EnsureCall :=
  let runId := getOrderRunId o.id
  let info := firstOrderInfo o custOrders
  [{ id := "tax_calculated", flow := "checkout", runId := runId,
     data := [("order_id", Value.str o.id), ("tax_total", Value.num (o.tax_total.getD 0)),
              ("subtotal", Value.num (o.subtotal.getD 0)),
              ("has_tax", Value.bool (decide (0 < o.tax_total.getD 0)))],
     depIds := [], validator := some taxV,
     descr := "Tax calculation: tax must be calculated correctly" },
   { id := "payment_amount_validation", flow := "checkout", runId := runId,
     data := [("order_id", Value.str o.id), ("order_total", Value.num (o.total.getD 0)),
              ("payment_total", Value.num (o.payment_total.getD 0)),
              ("currency", Value.str o.currency_code)],
     depIds := ["tax_calculated"], validator := some paymentV,
     descr := "Payment validation: amount must match order total" }]
  ++ ((o.items.getD []).map (fun it =>
      { id := "inventory_reserved", flow := "checkout", runId := runId,
        data := [("order_id", Value.str o.id), ("item_id", Value.str it.id),
                 ("product_title", Value.str (it.product_title.getD it.title)),
                 ("ordered_quantity", Value.num it.quantity),
                 ("variant_id", optStr it.variant_id)],
        depIds := [], validator := some inventoryV,
        descr := "Inventory check" }))
  ++ [{ id := "customer_orders", flow := "checkout", runId := runId,
        data := [("order_id", Value.str o.id), ("customer_id", optStr o.customer_id),
                 ("customer_email", optStr o.email),
                 ("is_first_order", Value.bool info.1), ("total_orders", Value.num info.2)],
        depIds := [], validator := none,
        descr := "Customer order history info" },
      { id := "order_confirmed", flow := "checkout", runId := runId,
        data := [("order_id", Value.str o.id), ("order_total", optNum o.total),
                 ("status", Value.str o.status),
                 ("payment_status", Value.str o.payment_status),
                 ("fulfillment_status", Value.str o.fulfillment_status),
                 ("confirmed_at", Value.str now)],
        depIds := orderConfirmDepIds, validator := some orderConfirmedV,
        descr := "Order confirmation: all business rules validated successfully" }]

/-- The single `ensure()` call `handleReturnRequested` makes. -/
def returnRequestedCalls (returnId : String) (now : String) : List EnsureCall :=
  [{ id := "return_requested", flow := "returns", runId := getReturnRunId returnId,
     data := [("return_id", Value.str returnId), ("requested_at", Value.str now)],
     depIds := [], validator := none,
     descr := "Return request initiated" }]

/-- The customer fields the loyalty subscriber reads. -/
structure Customer where
  id : String
  email : String

/-- `vip_status_check` rule: recompute the expected VIP flag from
`lifetime_spent >= 100000 || order_count >= 5` and compare it strictly with
`should_be_vip`. -/
def vipCheck (d : DataRec) : Bool :=
  decide (getField d "should_be_vip"
    = Value.bool (geNum (getField d "lifetime_spent") 100000
        || geNum (getField d "order_count") 5))

def vipV : Validator := fun d _ => Except.ok (vipCheck d)

/-- `points_earned` rule: `earned_points === Math.floor(order_total / 100) * multiplier`. -/
def pointsCheck (d : DataRec) : Bool :=
  match (getField d "order_total").asNum, (getField d "multiplier").asNum,
      (getField d "earned_points").asNum with
  | some ot, some m, some ep => decide (ep = ((⌊ot / 100⌋ : ℤ) : ℚ) * m)
  | _, _, _ => false

def pointsV : Validator := fun d _ => Except.ok (pointsCheck d)

/-- The `ensure()` calls `handleLoyaltyTracking` makes once the order, its
customer and the customer's order history have been fetched. -/
def loyaltyCalls (o : Order) (cust : Customer) (orders : List Order) : List EnsureCall :=
  let runId := getLoyaltyRunId cust.id o.id
  let lifetime : ℚ := orders.foldl (fun acc x => acc + x.total.getD 0) 0
  let shouldBeVip := decide (100000 ≤ lifetime) || decide (5 ≤ orders.length)
  let basePoints : ℚ := ((⌊(o.total.getD 0) / 100⌋ : ℤ) : ℚ)
  let multiplier : ℚ := if shouldBeVip then 2 else 1
  [{ id := "vip_status_check", flow := "loyalty", runId := runId,
     data := [("customer_id", Value.str cust.id), ("customer_email", Value.str cust.email),
              ("lifetime_spent", Value.num lifetime),
              ("order_count", Value.num (orders.length : ℚ)),
              ("should_be_vip", Value.bool shouldBeVip),
              ("order_total", optNum o.total)],
     depIds := [], validator := some vipV,
     descr := "VIP status: granted at $1000 lifetime spend or 5 orders" },
   { id := "points_earned", flow := "loyalty", runId := runId,
     data := [("order_id", Value.str o.id), ("customer_id", Value.str cust.id),
              ("order_total", optNum o.total),
              ("base_points", Value.num basePoints),
              ("multiplier", Value.num multiplier),
              ("earned_points", Value.num (basePoints * multiplier)),
              ("is_vip", Value.bool shouldBeVip)],
     depIds := ["vip_status_check"], validator := some pointsV,
     descr := "Loyalty points: 1 point/dollar (2x for VIP)" }]

/-- An inventory level row (only `stocked_quantity` is inspected). -/
structure StockLevel where
  stocked_quantity : Option ℚ

/-- The inventory item fields the inventory subscriber reads. -/
structure InventoryItem where
  id : String

/-- `stock_level_checked` rule: `total_stock >= 0`. -/
def stockCheck (d : DataRec) : Bool :=
  geNum (getField d "total_stock") 0

def stockV : Validator := fun d _ => Except.ok (stockCheck d)

/-- `low_stock_alert` rule: `current_stock <= threshold`. -/
def lowStockCheck (d : DataRec) : Bool :=
  leVal (getField d "current_stock") (getField d "threshold")

def lowStockV : Validator := fun d _ => Except.ok (lowStockCheck d)

/-- `reorder_triggered` rule: `reorder_quantity >= avg_monthly_sales * 3`. -/
def reorderCheck (d : DataRec) : Bool :=
  match (getField d "reorder_quantity").asNum, (getField d "avg_monthly_sales").asNum with
  | some rq, some am => decide (am * 3 ≤ rq)
  | _, _ => false

def reorderV : Validator := fun d _ => Except.ok (reorderCheck d)

/-- The `ensure()` calls `handleInventoryUpdate` makes for an item with a
nonempty level list (reorder point 20, low-stock threshold 20 * 0.2 = 4,
average monthly sales 10, reorder quantity 30). -/
def inventoryCalls (item : InventoryItem) (levels : List StockLevel) : List EnsureCall :=
  let runId := getInventoryRunId item.id
  let totalStock : ℚ := levels.foldl (fun acc l => acc + l.stocked_quantity.getD 0) 0
  let threshold : ℚ := 20 * (2 / 10)
  [{ id := "stock_level_checked", flow := "inventory", runId := runId,
     data := [("inventory_item_id", Value.str item.id),
              ("total_stock", Value.num totalStock),
              ("is_available", Value.bool (decide (0 < totalStock)))],
     depIds := [], validator := some stockV,
     descr := "Stock level validation: ensure non-negative inventory" }]
  ++ (if totalStock ≤ threshold then
      [{ id := "low_stock_alert", flow := "inventory", runId := runId,
         data := [("inventory_item_id", Value.str item.id),
                  ("current_stock", Value.num totalStock),
                  ("reorder_point", Value.num 20),
                  ("threshold", Value.num threshold),
                  ("is_low_stock", Value.bool (decide (totalStock ≤ threshold)))],
         depIds := [], validator := some lowStockV,
         descr := "Low stock alert: reordering needed" },
       { id := "reorder_triggered", flow := "inventory", runId := runId,
         data := [("inventory_item_id", Value.str item.id),
                  ("current_stock", Value.num totalStock),
                  ("avg_monthly_sales", Value.num 10),
                  ("reorder_quantity", Value.num 30)],
         depIds := ["low_stock_alert"], validator := some reorderV,
         descr := "Reorder calculation: 3 months supply based on sales history" }]
      else [])

/-- How a subscriber handler ends relative to its caller: a normal return, or
a re-raised error. -/
inductive HandlerResult where
  | ok
  | raised (e : String)
deriving DecidableEq

/-- The `try { body } catch (error) { console.error(...) }` wrapper every
subscriber uses: a failing body is logged and swallowed, never re-raised. -/
def tryTrack (s : RunStore) (body : Except String RunStore) : HandlerResult × RunStore :=
  match body with
  | Except.ok s2 => (HandlerResult.ok, s2)
  | Except.error _ => (HandlerResult.ok, s)

/-- `handleCartUpdated` of `cart-updated.ts`: fetch the cart, make the
tracking calls, swallow any error. -/
def handleCartUpdated (fetchCart : Except String Cart) (s : RunStore) :
    HandlerResult × RunStore :=
  tryTrack s (do
    let cart ← fetchCart
    pure ((cartUpdatedCalls cart).foldl ensure s))

/-- The unnamed cart-updated variant's handler. -/
def handleCartUpdatedVar (fetchCart : Except String Cart) (s : RunStore) :
    HandlerResult × RunStore :=
  tryTrack s (do
    let cart ← fetchCart
    pure ((cartUpdatedCallsVar cart).foldl ensure s))

/-- `handleOrderPlaced` of `order-placed.ts`: fetch the order, make the
tracking calls (the customer-order lookup's own failure is absorbed inside
`firstOrderInfo`), swallow any error. -/
def handleOrderPlaced (fetchOrder : Except String Order)
    (custOrders : Except String (List Order)) (now : String) (s : RunStore) :
    HandlerResult × RunStore :=
  tryTrack s (do
    let o ← fetchOrder
    pure ((orderPlacedCalls o custOrders now).foldl ensure s))

/-- The unnamed order-placed variant's handler. -/
def handleOrderPlacedVar (fetchOrder : Except String Order)
    (custOrders : Except String (List Order)) (now : String) (s : RunStore) :
    HandlerResult × RunStore :=
  tryTrack s (do
    let o ← fetchOrder
    pure ((orderPlacedCallsVar o custOrders now).foldl ensure s))

/-- `handleReturnRequested` of `order-placed.ts`. -/
def handleReturnRequested (returnId : String) (now : String) (s : RunStore) :
    HandlerResult × RunStore :=
  tryTrack s (pure ((returnRequestedCalls returnId now).foldl ensure s))

/-- `handleLoyaltyTracking` of `loyalty-tracking.ts`: guest checkouts return
early; otherwise fetch customer and order history, track, swallow any error. -/
def handleLoyaltyTracking (fetchOrder : Except String Order)
    (fetchCustomer : Except String Customer)
    (fetchOrders : Except String (List Order)) (s : RunStore) :
    HandlerResult × RunStore :=
  tryTrack s (do
    let o ← fetchOrder
    match o.customer_id with
    | none => pure s
    | some _ => do
      let cust ← fetchCustomer
      let orders ← fetchOrders
      pure ((loyaltyCalls o cust orders).foldl ensure s))

/-- `handleInventoryUpdate` of the unnamed inventory subscriber: fetch the
item and its levels, return early when no levels exist, track, swallow any
error. -/
def handleInventoryUpdate (fetchItem : Except String InventoryItem)
    (fetchLevels : Except String (List StockLevel)) (s : RunStore) :
    HandlerResult × RunStore :=
  tryTrack s (do
    let it ← fetchItem
    let lv ← fetchLevels
    if lv.isEmpty then pure s
    else pure ((inventoryCalls it lv).foldl ensure s))

lemma tryTrack_ok (s : RunStore) (body : Except String RunStore) :
    (tryTrack s body).1 = HandlerResult.ok := by
  cases body <;> rfl

lemma get_foldl_of_ne (calls : List EnsureCall) (s : RunStore) (k : EventKey)
    (h : ∀ c ∈ calls, c.key ≠ k) :
    RunStore.get (calls.foldl ensure s) k = RunStore.get s k := by
  induction calls generalizing s with
  | nil => rfl
  | cons c t ih =>
    rw [List.foldl_cons, ih (ensure s c) (fun c' hc' => h c' (List.mem_cons_of_mem c hc')),
      get_ensure_ne s c k (Ne.symm (h c (List.mem_cons_self c t)))]

lemma cartUpdatedCalls_ids (cart : Cart) :
    ∀ c ∈ cartUpdatedCalls cart, c.id ≠ "first_order_discount_check" := by
  intro c hc
  simp only [cartUpdatedCalls, List.mem_append, List.mem_cons, List.not_mem_nil,
    or_false] at hc
  rcases hc with (hc | hc) | hc
  · subst hc; intro h; simp at h
  · split at hc
    · simp only [List.mem_cons, List.not_mem_nil, or_false] at hc
      subst hc; intro h; simp at h
    · cases hc
  · split at hc
    · simp only [List.mem_cons, List.not_mem_nil, or_false] at hc
      subst hc; intro h; simp at h
    · cases hc

lemma cartUpdatedCallsVar_ids (cart : Cart) :
    ∀ c ∈ cartUpdatedCallsVar cart, c.id ≠ "first_order_discount_check" := by
  intro c hc
  simp only [cartUpdatedCallsVar, List.mem_append, List.mem_cons, List.not_mem_nil,
    or_false] at hc
  rcases hc with (hc | hc) | hc
  · subst hc; intro h; simp at h
  · split at hc
    · simp only [List.mem_cons, List.not_mem_nil, or_false] at hc
      subst hc; intro h; simp at h
    · cases hc
  · split at hc
    · simp only [List.mem_cons, List.not_mem_nil, or_false] at hc
      subst hc; intro h; simp at h
    · cases hc

lemma orderPlacedCalls_ids (o : Order) (co : Except String (List Order)) (now : String) :
    ∀ c ∈ orderPlacedCalls o co now, c.id ≠ "first_order_discount_check" := by
  intro c hc
  simp only [orderPlacedCalls, List.mem_append, List.mem_cons, List.not_mem_nil,
    or_false] at hc
  rcases hc with ((hc | hc) | hc) | (hc | hc)
  · subst hc; intro h; simp at h
  · subst hc; intro h; simp at h
  · obtain ⟨it, _, rfl⟩ := List.mem_map.mp hc; intro h; simp at h
  · subst hc; intro h; simp at h
  · subst hc; intro h; simp at h

lemma orderPlacedCallsVar_ids (o : Order) (co : Except String (List Order)) (now : String) :
    ∀ c ∈ orderPlacedCallsVar o co now, c.id ≠ "first_order_discount_check" := by
  intro c hc
  simp only [orderPlacedCallsVar, List.mem_append, List.mem_cons, List.not_mem_nil,
    or_false] at hc
  rcases hc with ((hc | hc) | hc) | (hc | hc)
  · subst hc; intro h; simp at h
  · subst hc; intro h; simp at h
  · obtain ⟨it, _, rfl⟩ := List.mem_map.mp hc; intro h; simp at h
  · subst hc; intro h; simp at h
  · subst hc; intro h; simp at h

lemma returnRequestedCalls_ids (rid now : String) :
    ∀ c ∈ returnRequestedCalls rid now, c.id ≠ "first_order_discount_check" := by
  intro c hc
  simp only [returnRequestedCalls, List.mem_cons, List.not_mem_nil, or_false] at hc
  subst hc; intro h; simp at h

lemma loyaltyCalls_ids (o : Order) (cust : Customer) (orders : List Order) :
    ∀ c ∈ loyaltyCalls o cust orders, c.id ≠ "first_order_discount_check" := by
  intro c hc
  simp only [loyaltyCalls, List.mem_cons, List.not_mem_nil, or_false] at hc
  rcases hc with hc | hc
  · subst hc; intro h; simp at h
  · subst hc; intro h; simp at h

lemma inventoryCalls_ids (item : InventoryItem) (levels : List StockLevel) :
    ∀ c ∈ inventoryCalls item levels, c.id ≠ "first_order_discount_check" := by
  intro c hc
  simp only [inventoryCalls, List.mem_append, List.mem_cons, List.not_mem_nil,
    or_false] at hc
  rcases hc with hc | hc
  · subst hc; intro h; simp at h
  · split at hc
    · simp only [List.mem_cons, List.not_mem_nil, or_false] at hc
      rcases hc with hc | hc
      · subst hc; intro h; simp at h
      · subst hc; intro h; simp at h
    · cases hc

/-- An `ensure()` call some subscriber of this repository makes, for some
fetched business entity. -/
def emittedBySubscribers (c : EnsureCall) : Prop :=
  (∃ cart, c ∈ cartUpdatedCalls cart) ∨
  (∃ cart, c ∈ cartUpdatedCallsVar cart) ∨
  (∃ o co now, c ∈ orderPlacedCalls o co now) ∨
  (∃ o co now, c ∈ orderPlacedCallsVar o co now) ∨
  (∃ rid now, c ∈ returnRequestedCalls rid now) ∨
  (∃ o cust orders, c ∈ loyaltyCalls o cust orders) ∨
  (∃ item levels, c ∈ inventoryCalls item levels)

lemma emitted_id_ne (c : EnsureCall) (h : emittedBySubscribers c) :
    c.id ≠ "first_order_discount_check" := by
  rcases h with ⟨cart, hc⟩ | ⟨cart, hc⟩ | ⟨o, co, now, hc⟩ | ⟨o, co, now, hc⟩ |
    ⟨rid, now, hc⟩ | ⟨o, cust, orders, hc⟩ | ⟨item, levels, hc⟩
  · exact cartUpdatedCalls_ids cart c hc
  · exact cartUpdatedCallsVar_ids cart c hc
  · exact orderPlacedCalls_ids o co now c hc
  · exact orderPlacedCallsVar_ids o co now c hc
  · exact returnRequestedCalls_ids rid now c hc
  · exact loyaltyCalls_ids o cust orders c hc
  · exact inventoryCalls_ids item levels c hc

/-- C1: calling `ensure()` twice with the same (flow, runId, nodeId) but
different data leaves exactly one stored event under that key, and that event
is precisely the one built from the second call — its data (and dependency
ids and outcome) come from the second call alone, so no state from the first
call is retained: re-ensure is an idempotent overwrite, not an append. -/
theorem ensure_twice_idempotent_overwrite (f r n : String) (d1 d2 : DataRec)
    (p1 p2 : List String) (v1 v2 : Option Validator) (x1 x2 : String) (s : RunStore) :
    countKey (ensure (ensure s ⟨n, f, r, d1, p1, v1, x1⟩) ⟨n, f, r, d2, p2, v2, x2⟩) ⟨f, r, n⟩ = 1 ∧
    RunStore.get (ensure (ensure s ⟨n, f, r, d1, p1, v1, x1⟩) ⟨n, f, r, d2, p2, v2, x2⟩) ⟨f, r, n⟩
      = some (ensuredEvent (ensure s ⟨n, f, r, d1, p1, v1, x1⟩) ⟨n, f, r, d2, p2, v2, x2⟩) ∧
    (ensuredEvent (ensure s ⟨n, f, r, d1, p1, v1, x1⟩) ⟨n, f, r, d2, p2, v2, x2⟩).data = d2 := by
  exact ⟨countKey_ensure_self _ _, get_ensure_self _ _, rfl⟩

/-- C2: `resolve(flow, runId, depIds)` assigns to every depId exactly the
event-or-absent that `get` yields for it, keeps the depIds as the domain of
the mapping, yields absent (`none`) for any depId with no recorded event, and
both operations are total functions into `Option` — neither ever raises an
error for a missing node. -/
theorem resolve_yields_absent_not_error (s : RunStore) (f r : String) (ids : List String) :
    (resolve s f r ids).map Prod.fst = ids ∧
    (∀ i ∈ ids, (i, RunStore.get s ⟨f, r, i⟩) ∈ resolve s f r ids) ∧
    (∀ i ∈ ids, RunStore.get s ⟨f, r, i⟩ = none →
      (i, (none : Option Event)) ∈ resolve s f r ids) ∧
    (∀ k : EventKey, RunStore.get s k = none ∨ ∃ e, RunStore.get s k = some e) := by
  refine ⟨?_, ?_, ?_, ?_⟩
  · rw [resolve, List.map_map]
    exact List.map_id ids
  · intro i hi
    exact List.mem_map.mpr ⟨i, hi, rfl⟩
  · intro i hi h
    have hm : (i, RunStore.get s ⟨f, r, i⟩) ∈ resolve s f r ids :=
      List.mem_map.mpr ⟨i, hi, rfl⟩
    rwa [h] at hm
  · intro k
    cases hk : RunStore.get s k with
    | none => exact Or.inl rfl
    | some e => exact Or.inr ⟨e, rfl⟩

/-- C2 witness: resolving an unrecorded depId against the empty store yields
an absent entry. -/
theorem resolve_yields_absent_not_error_witness :
    ("a", (none : Option Event)) ∈ resolve [] "checkout" "run1" ["a"] :=
  (resolve_yields_absent_not_error [] "checkout" "run1" ["a"]).2.2.1 "a"
    (List.mem_singleton.mpr rfl) rfl

/-- C3: when an attached validator raises a runtime fault during evaluation,
the outcome is a failure annotated with the fault, and `ensure()` returns
normally, storing the event with exactly that failed outcome — the exception
is never propagated to the caller. -/
theorem validator_fault_not_propagated (s : RunStore) (c : EnsureCall)
    (v : Validator) (msg : String)
    (hv : c.validator = some v)
    (hf : v c.data (presentDeps s c.flow c.runId c.depIds) = Except.error msg) :
    evaluate c.validator c.data (presentDeps s c.flow c.runId c.depIds)
      = Outcome.faulted msg ∧
    Outcome.isFailure (Outcome.faulted msg) = true ∧
    RunStore.get (ensure s c) c.key
      = some ⟨c.key, c.data, c.depIds, Outcome.faulted msg⟩ := by
  have he : evaluate c.validator c.data (presentDeps s c.flow c.runId c.depIds)
      = Outcome.faulted msg := by
    rw [hv]
    simp only [evaluate, hf]
  refine ⟨he, rfl, ?_⟩
  rw [get_ensure_self]
  unfold ensuredEvent
  rw [he]

/-- A validator that always raises, for exercising the fault path. -/
def faultingV : Validator := fun _ _ => Except.error "boom"

/-- An `ensure()` call carrying the always-raising validator. -/
def faultCallEx : EnsureCall :=
  { id := "n1", flow := "checkout", runId := "r1", data := [], depIds := [],
    validator := some faultingV, descr := "" }

/-- C3 witness: the always-raising validator produces a `faulted` outcome and
a normally-stored event. -/
theorem validator_fault_not_propagated_witness :
    evaluate faultCallEx.validator faultCallEx.data
      (presentDeps [] faultCallEx.flow faultCallEx.runId faultCallEx.depIds)
      = Outcome.faulted "boom" ∧
    Outcome.isFailure (Outcome.faulted "boom") = true ∧
    RunStore.get (ensure [] faultCallEx) faultCallEx.key
      = some ⟨faultCallEx.key, faultCallEx.data, faultCallEx.depIds, Outcome.faulted "boom"⟩ :=
  validator_fault_not_propagated [] faultCallEx faultingV "boom" rfl rfl

/-- C4: after any finite sequence of `ensure()` calls whose (flow, runId,
nodeId) triples are pairwise distinct, each call's event is retrievable via
`get` with exactly the data that call supplied. -/
theorem distinct_ensures_independently_retrievable (calls : List EnsureCall)
    (s : RunStore) (hd : calls.Pairwise (fun a b => a.key ≠ b.key)) :
    ∀ c ∈ calls, ∃ e, RunStore.get (calls.foldl ensure s) c.key = some e ∧ e.data = c.data := by
  revert hd
  induction calls generalizing s with
  | nil =>
    intro _ c hc
    exact absurd hc (List.not_mem_nil c)
  | cons a t ih =>
    intro hd c hc
    rw [List.foldl_cons]
    rcases List.mem_cons.mp hc with rfl | hct
    · rw [get_foldl_of_ne t (ensure s c) c.key
        (fun c' hc' => Ne.symm ((List.pairwise_cons.mp hd).1 c' hc'))]
      exact ⟨ensuredEvent s c, get_ensure_self s c, rfl⟩
    · exact ih (ensure s a) (List.pairwise_cons.mp hd).2 c hct

/-- A first concrete tracking call for the C4 witness. -/
def callExA : EnsureCall :=
  ⟨"a", "checkout", "r1", [("x", Value.num 1)], [], none, ""⟩

/-- A second concrete tracking call, at a distinct node, for the C4 witness. -/
def callExB : EnsureCall :=
  ⟨"b", "checkout", "r1", [("y", Value.num 2)], [], none, ""⟩

/-- C4 witness: after two distinct-key calls, the second one's event is
retrievable with its own data. -/
theorem distinct_ensures_independently_retrievable_witness :
    ∃ e, RunStore.get ([callExA, callExB].foldl ensure []) callExB.key = some e ∧
      e.data = callExB.data :=
  distinct_ensures_independently_retrievable [callExA, callExB] []
    (List.pairwise_cons.mpr ⟨by
        intro b hb
        rw [List.mem_singleton.mp hb]
        intro h
        simp [callExA, callExB, EnsureCall.key] at h,
      List.pairwise_singleton _ _⟩)
    callExB (List.mem_cons_of_mem callExA (List.mem_cons_self callExB []))

/-- C5: no failure inside the tracking path ever aborts the surrounding
business operation — every subscriber handler (both cart-updated variants,
both order-placed variants, the return, loyalty and inventory handlers)
returns normally for every input, never re-raising an error to its caller:
a business violation or validator fault is absorbed by the Validator
Executor, and any fault in the handler body is swallowed by its
try/catch wrapper. -/
theorem subscribers_never_reraise :
    (∀ fc s, (handleCartUpdated fc s).1 = HandlerResult.ok) ∧
    (∀ fc s, (handleCartUpdatedVar fc s).1 = HandlerResult.ok) ∧
    (∀ fo co now s, (handleOrderPlaced fo co now s).1 = HandlerResult.ok) ∧
    (∀ fo co now s, (handleOrderPlacedVar fo co now s).1 = HandlerResult.ok) ∧
    (∀ rid now s, (handleReturnRequested rid now s).1 = HandlerResult.ok) ∧
    (∀ fo fc fos s, (handleLoyaltyTracking fo fc fos s).1 = HandlerResult.ok) ∧
    (∀ fi fl s, (handleInventoryUpdate fi fl s).1 = HandlerResult.ok) := by
  refine ⟨?_, ?_, ?_, ?_, ?_, ?_, ?_⟩
  · intro fc s
    exact tryTrack_ok s _
  · intro fc s
    exact tryTrack_ok s _
  · intro fo co now s
    exact tryTrack_ok s _
  · intro fo co now s
    exact tryTrack_ok s _
  · intro rid now s
    exact tryTrack_ok s _
  · intro fo fc fos s
    exact tryTrack_ok s _
  · intro fi fl s
    exact tryTrack_ok s _

/-- C6: on the `discount_validation` data the cart-updated subscribers build
from subtotal 100 and total 60 — so `total_discount = 40`, `subtotal = 100`
and `discount_percent = total_discount / subtotal = 0.40` — the validator
`discount_percent <= 0.30` returns false, and evaluating the node yields a
fail outcome, whatever dependencies are in scope. -/
theorem discount_validation_fails_at_forty_percent :
    getField (mkDiscountData "cart_1" 100 60) "total_discount" = Value.num 40 ∧
    getField (mkDiscountData "cart_1" 100 60) "subtotal" = Value.num 100 ∧
    getField (mkDiscountData "cart_1" 100 60) "discount_percent" = Value.num (40 / 100) ∧
    discountCheck (mkDiscountData "cart_1" 100 60) = false ∧
    ∀ deps : List Event,
      evaluate (some discountV) (mkDiscountData "cart_1" 100 60) deps = Outcome.fail := by
  have h : discountCheck (mkDiscountData "cart_1" 100 60) = false := by
    simp [discountCheck, mkDiscountData, getField, leNum, Value.asNum, List.find?]
    norm_num
  refine ⟨?_, ?_, ?_, h, ?_⟩
  · simp [mkDiscountData, getField, List.find?]
    norm_num
  · simp [mkDiscountData, getField, List.find?]
  · simp [mkDiscountData, getField, List.find?]
    norm_num
  · intro deps
    simp only [evaluate, discountV, h]

/-- C7: two racing `ensure()` calls for the same (flow, runId, nodeId) with
different payloads, modelled as the two serialization orders of the Run
Store's atomic upsert, both leave exactly one stored event under that key,
whose data equals one of the two payloads in full — last-write-wins, never a
partial merge of fields from both. -/
theorem concurrent_same_key_last_write_wins (f r n : String) (d1 d2 : DataRec)
    (p1 p2 : List String) (v1 v2 : Option Validator) (x1 x2 : String) (s : RunStore) :
    (countKey (ensure (ensure s ⟨n, f, r, d1, p1, v1, x1⟩) ⟨n, f, r, d2, p2, v2, x2⟩) ⟨f, r, n⟩ = 1 ∧
     ∃ e, RunStore.get (ensure (ensure s ⟨n, f, r, d1, p1, v1, x1⟩) ⟨n, f, r, d2, p2, v2, x2⟩) ⟨f, r, n⟩
        = some e ∧ (e.data = d1 ∨ e.data = d2)) ∧
    (countKey (ensure (ensure s ⟨n, f, r, d2, p2, v2, x2⟩) ⟨n, f, r, d1, p1, v1, x1⟩) ⟨f, r, n⟩ = 1 ∧
     ∃ e, RunStore.get (ensure (ensure s ⟨n, f, r, d2, p2, v2, x2⟩) ⟨n, f, r, d1, p1, v1, x1⟩) ⟨f, r, n⟩
        = some e ∧ (e.data = d1 ∨ e.data = d2)) := by
  constructor
  · exact ⟨countKey_ensure_self _ _,
      ⟨ensuredEvent (ensure s ⟨n, f, r, d1, p1, v1, x1⟩) ⟨n, f, r, d2, p2, v2, x2⟩,
       get_ensure_self _ _, Or.inr rfl⟩⟩
  · exact ⟨countKey_ensure_self _ _,
      ⟨ensuredEvent (ensure s ⟨n, f, r, d2, p2, v2, x2⟩) ⟨n, f, r, d1, p1, v1, x1⟩,
       get_ensure_self _ _, Or.inl rfl⟩⟩

/-- C8: no `ensure()` call any subscriber of this repository makes records a
node with id `first_order_discount_check`; hence in every run built from
subscriber-emitted calls, that declared dependency of `order_confirmed`
resolves to absent. -/
theorem first_order_discount_check_always_absent (calls : List EnsureCall)
    (h : ∀ c ∈ calls, emittedBySubscribers c) (f r : String) :
    "first_order_discount_check" ∈ orderConfirmDepIds ∧
    RunStore.get (calls.foldl ensure []) ⟨f, r, "first_order_discount_check"⟩ = none ∧
    ("first_order_discount_check", (none : Option Event))
      ∈ resolve (calls.foldl ensure []) f r orderConfirmDepIds := by
  have hg : RunStore.get (calls.foldl ensure []) ⟨f, r, "first_order_discount_check"⟩ = none := by
    rw [get_foldl_of_ne]
    · rfl
    · intro c hc hk
      exact emitted_id_ne c (h c hc) (congrArg EventKey.nodeId hk)
  refine ⟨by decide, hg, ?_⟩
  have hm : ("first_order_discount_check",
      RunStore.get (calls.foldl ensure []) ⟨f, r, "first_order_discount_check"⟩)
      ∈ resolve (calls.foldl ensure []) f r orderConfirmDepIds :=
    List.mem_map.mpr ⟨"first_order_discount_check", by decide, rfl⟩
  rwa [hg] at hm

/-- A concrete cart for the C8 witness. -/
def cartEx : Cart :=
  { id := "c1", items := some [⟨"i1"⟩], subtotal := some 10000, total := some 9000,
    shipping_total := some 0, shipping_methods := none }

/-- C8 witness: in the run produced by the cart-updated subscriber on a
concrete cart, `first_order_discount_check` resolves to absent. -/
theorem first_order_discount_check_always_absent_witness :
    "first_order_discount_check" ∈ orderConfirmDepIds ∧
    RunStore.get ((cartUpdatedCalls cartEx).foldl ensure [])
      ⟨"checkout", "cart_c1", "first_order_discount_check"⟩ = none ∧
    ("first_order_discount_check", (none : Option Event))
      ∈ resolve ((cartUpdatedCalls cartEx).foldl ensure []) "checkout" "cart_c1"
        orderConfirmDepIds :=
  first_order_discount_check_always_absent (cartUpdatedCalls cartEx)
    (fun _ hc => Or.inl ⟨cartEx, hc⟩) "checkout" "cart_c1"

/-- A cart data record with one item and total 0, on which the two
`cart_validated` variants disagree. -/
def cartDataCex : DataRec := [("item_count", Value.num 1), ("total", Value.num 0)]

/-- C9 counterexample: the two `cart_validated` validators do not return the
same boolean for every cart data record — on `item_count = 1, total = 0` the
`cart-updated.ts` rule (`item_count > 0 && total > 0`) returns false while the
unnamed variant's rule (`item_count > 0`) returns true, so the former fails
and the latter passes. -/
theorem cart_validators_disagree :
    cartValidatedCheck cartDataCex = false ∧
    cartValidatedCheckVar cartDataCex = true ∧
    cartValidatedCheck cartDataCex ≠ cartValidatedCheckVar cartDataCex ∧
    evaluate (some cartValidatedV) cartDataCex [] = Outcome.fail ∧
    evaluate (some cartValidatedVarV) cartDataCex [] = Outcome.pass := by
  refine ⟨by decide, by decide, by decide, by decide, by decide⟩

/-- C9 amended: the two `cart_validated` variants are not equivalent, but the
`cart-updated.ts` rule refines the unnamed variant's rule — whenever
`item_count > 0 && total > 0` holds, `item_count > 0` holds; they differ
exactly on records with a positive item count and no positive total. -/
theorem cart_validator_ts_refines_variant (d : DataRec)
    (h : cartValidatedCheck d = true) :
    cartValidatedCheckVar d = true := by
  simp only [cartValidatedCheck, Bool.and_eq_true] at h
  exact h.1

/-- A cart data record satisfying the stricter `cart-updated.ts` rule. -/
def cartDataOk : DataRec := [("item_count", Value.num 2), ("total", Value.num 5)]

/-- C9 amended witness: a record passing the stricter rule also passes the
variant's rule. -/
theorem cart_validator_ts_refines_variant_witness :
    cartValidatedCheck cartDataOk = true ∧ cartValidatedCheckVar cartDataOk = true :=
  ⟨by decide, cart_validator_ts_refines_variant cartDataOk (by decide)⟩

/-- C10: the `order_confirmed` validator is the total boolean function
`orderConfirmedCheck` (wrapped in `Except.ok`, so it never throws); when
`ctx.deps` holds no event whose node id is `payment_amount_validation` it
returns false, and when such an event is found it returns true exactly when
the absolute difference between `data.order_total` and the dependency's
`data.payment_total` is strictly below 100. -/
theorem order_confirmed_validator_semantics (d : DataRec) (deps : List Event) :
    orderConfirmedV d deps = Except.ok (orderConfirmedCheck d deps) ∧
    (deps.find? (fun e => decide (e.key.nodeId = "payment_amount_validation")) = none →
      orderConfirmedCheck d deps = false) ∧
    (∀ dep a b,
      deps.find? (fun e => decide (e.key.nodeId = "payment_amount_validation")) = some dep →
      getField d "order_total" = Value.num a →
      getField dep.data "payment_total" = Value.num b →
      (orderConfirmedCheck d deps = true ↔ |a - b| < 100)) := by
  refine ⟨rfl, ?_, ?_⟩
  · intro h
    unfold orderConfirmedCheck
    rw [h]
  · intro dep a b hdep ha hb
    unfold orderConfirmedCheck
    rw [hdep]
    show absLtNum (getField d "order_total") (getField dep.data "payment_total") 100
      = true ↔ |a - b| < 100
    unfold absLtNum
    rw [ha, hb]
    simp [Value.asNum]

/-- Concrete `order_confirmed` data for the C10 witness. -/
def ocDataEx : DataRec := [("order_id", Value.str "o1"), ("order_total", Value.num 1000)]

/-- A concrete recorded `payment_amount_validation` event for the C10 witness. -/
def payDepEx : Event :=
  ⟨⟨"checkout", "r1", "payment_amount_validation"⟩,
   [("payment_total", Value.num 950)], [], Outcome.pass⟩

/-- C10 witness: with no payment dependency the check is false; with a
payment dependency 50 cents apart it is true. -/
theorem order_confirmed_validator_semantics_witness :
    orderConfirmedCheck ocDataEx [] = false ∧
    orderConfirmedCheck ocDataEx [payDepEx] = true := by
  constructor
  · exact (order_confirmed_validator_semantics ocDataEx []).2.1 rfl
  · exact ((order_confirmed_validator_semantics ocDataEx [payDepEx]).2.2 payDepEx
      1000 950 rfl rfl rfl).mpr (by norm_num)
